import Mathlib

/-
Verification development for the PaperS3-Streamer command-line client
(src/client/paper_cli.py).  The client drives a remote e-ink display over
HTTP, a raw TCP stream, and an HTTP-configured MQTT bridge, and fetches
geocoded static-map imagery.  Every definition below is a shallow embedding
of a concrete region of paper_cli.py (line numbers cited in the doc
comments); floats of the Python source are modelled as exact rationals, and
the outcomes of external HTTP/TCP calls are passed in as explicit oracle
values.
-/

namespace PaperCli

/-- Truthiness of an optional Python string: `None` and the empty string are
falsy, every other string is truthy. -/
def truthy : Option String → Bool
  | none => false
  | some s => !(s == "")

/-- Embeds the Python expression `a or b` on optional strings, as used for
`args.ip or os.environ.get("PAPER_IP")` (line 46) and
`args.api_key or os.environ.get("STADIA_API_KEY")` (line 191). -/
def pyOr (a b : Option String) : Option String :=
  if truthy a then a else b

/-- Outcome of the endpoint-resolution stage, paper_cli.py lines 45-51:
`fail` is the printed error plus `sys.exit(1)`; `ok` carries the computed
base URL. -/
inductive IpStage where
  | fail
  | ok (baseUrl : String)
deriving DecidableEq

/-- Line 46: `ip = args.ip or os.environ.get("PAPER_IP")`. -/
def resolveIp (argIp envIp : Option String) : Option String :=
  pyOr argIp envIp

/-- Lines 46-51: resolve the device address and build the base URL, failing
with exit status 1 when the resolved value is falsy. -/
def ipStage (argIp envIp : Option String) : IpStage :=
  match resolveIp argIp envIp with
  | none => IpStage.fail
  | some s => if s == "" then IpStage.fail else IpStage.ok ("http://" ++ s ++ "/api")

/-- Image dimensions in pixels. -/
structure Dim where
  w : ℕ
  h : ℕ
deriving DecidableEq

/-- Python `round` on an exact rational value: round half to even. -/
def pyRound (q : ℚ) : ℤ :=
  if q - ((Int.floor q : ℤ) : ℚ) < 1 / 2 then Int.floor q
  else if 1 / 2 < q - ((Int.floor q : ℤ) : ℚ) then Int.floor q + 1
  else if Int.floor q % 2 = 0 then Int.floor q else Int.floor q + 1

/-- Dimension computation of Pillow `ImageOps.contain(image, size)`, the
call made at paper_cli.py line 144: when the aspect quotients differ, the
axis that sticks out is pinned to the box and the other axis is rounded
proportionally; when they agree the image is resized to the box itself.
Note the function scales the image TO the box in every case, upscaling
images smaller than the box. -/
def containSize (img : Dim) (box : Dim) : Dim :=
  if (img.w : ℚ) / (img.h : ℚ) = (box.w : ℚ) / (box.h : ℚ) then box
  else if (box.w : ℚ) / (box.h : ℚ) < (img.w : ℚ) / (img.h : ℚ) then
    if pyRound ((img.h : ℚ) / (img.w : ℚ) * (box.w : ℚ)) ≠ (box.h : ℤ) then
      { w := box.w, h := (pyRound ((img.h : ℚ) / (img.w : ℚ) * (box.w : ℚ))).toNat }
    else box
  else
    if pyRound ((img.w : ℚ) / (img.h : ℚ) * (box.h : ℚ)) ≠ (box.w : ℤ) then
      { w := (pyRound ((img.w : ℚ) / (img.h : ℚ) * (box.h : ℚ))).toNat, h := box.h }
    else box

/-- Pillow color modes relevant to the client: RGB, grayscale L, and a
catch-all for indexed/alpha modes. -/
inductive PILMode where
  | RGB
  | L
  | other
deriving DecidableEq

/-- Abstract PIL image: dimensions, color mode, and the accumulated
contrast-enhancement factor applied so far. -/
structure AbsImage where
  dim : Dim
  mode : PILMode
  contrast : ℚ
deriving DecidableEq

/-- Resampling filter; the client always passes LANCZOS. -/
inductive Resample where
  | lanczos
deriving DecidableEq

/-- One PIL operation performed by the client. -/
inductive PILOp where
  | resize (target : Dim) (method : Resample)
  | convert (m : PILMode)
  | enhanceContrast (factor : ℚ)
deriving DecidableEq

/-- Effect of one PIL operation on the abstract image. -/
def applyOp (img : AbsImage) : PILOp → AbsImage
  | PILOp.resize t _ => { img with dim := t }
  | PILOp.convert m => { img with mode := m }
  | PILOp.enhanceContrast f => { img with contrast := img.contrast * f }

/-- Sequential application of PIL operations. -/
def applyOps (img : AbsImage) (ops : List PILOp) : AbsImage :=
  ops.foldl applyOp img

/-- A JPEG-encoded output: the image state at save time and the quality
passed to `img.save(..., format='JPEG', quality=...)`. -/
structure JPEGOut where
  image : AbsImage
  quality : ℕ
deriving DecidableEq

/-- Generic-image pipeline, paper_cli.py lines 137-144: convert to RGB when
not already RGB, then `ImageOps.contain(img, (960, 960), LANCZOS)` (whose
dimension choice is `containSize` and whose effect is a resize). -/
def genericOps (img : AbsImage) : List PILOp :=
  (if img.mode ≠ PILMode.RGB then [PILOp.convert PILMode.RGB] else [])
    ++ [PILOp.resize (containSize img.dim { w := 960, h := 960 }) Resample.lanczos]

/-- Generic-image normalization result, lines 137-149: run the pipeline and
save as JPEG quality 85. -/
def runGeneric (img : AbsImage) : JPEGOut :=
  { image := applyOps img (genericOps img), quality := 85 }

/-- Map-image pipeline, paper_cli.py lines 313-329: resize to the exact
device geometry when the sizes differ, convert to grayscale L, enhance
contrast by factor 1.2, convert back to RGB. -/
def mapOps (img : AbsImage) (screen : Dim) : List PILOp :=
  (if img.dim ≠ screen then [PILOp.resize screen Resample.lanczos] else [])
    ++ [PILOp.convert PILMode.L,
        PILOp.enhanceContrast ((6 : ℚ) / 5),
        PILOp.convert PILMode.RGB]

/-- Map-image processing result, lines 313-334: run the pipeline and save
as JPEG quality 90. -/
def runMapProcess (img : AbsImage) (screen : Dim) : JPEGOut :=
  { image := applyOps img (mapOps img screen), quality := 90 }

/-- Zoom heuristic from the bounding-box span, paper_cli.py lines 246-257:
descending strict thresholds on `max_diff`. -/
def zoomForSpan (maxDiff : ℚ) : ℤ :=
  if 10 < maxDiff then 5
  else if 5 < maxDiff then 7
  else if 1 < maxDiff then 10
  else if 1 / 10 < maxDiff then 13
  else if 1 / 100 < maxDiff then 15
  else 16

/-- Geocoder bounding box `[south, north, west, east]` (line 228). -/
structure BBox where
  south : ℚ
  north : ℚ
  west : ℚ
  east : ℚ
deriving DecidableEq

/-- One geocoder result: point coordinates and an optional bounding box. -/
structure GeoResult where
  lat : ℚ
  lon : ℚ
  boundingbox : Option BBox
deriving DecidableEq

/-- Outcome of the geocoding request (lines 215-217): a
`requests.exceptions.RequestException` (connection failure or non-2xx via
`raise_for_status`), or a decoded JSON result list. -/
inductive GeoOutcome where
  | reqFail
  | ok (results : List GeoResult)
deriving DecidableEq

/-- Outcome of an outbound HTTP request whose failure paths matter: 2xx
success, an `HTTPError` raised by `raise_for_status` with the response
status, or a connection-level error. -/
inductive FetchOutcome where
  | ok
  | httpErr (status : ℕ)
  | connErr
deriving DecidableEq

/-- JSON body of the device `/api/status` response, with the two fields the
map command reads via `.get` (lines 282-283). -/
structure StatusJson where
  screen_width : Option ℕ
  screen_height : Option ℕ
deriving DecidableEq

/-- Lines 277-287: query the device status; on success take
`screen_width`/`screen_height` with defaults 960/540, on any failure fall
back to 960x540 with a warning. -/
def screenStage (st : Option StatusJson) : Dim :=
  match st with
  | some s => { w := s.screen_width.getD 960, h := s.screen_height.getD 540 }
  | none => { w := 960, h := 540 }

/-- Inputs and external-call oracle of one run of the map command
(paper_cli.py lines 189-354). -/
structure MapInput where
  apiKeyArg : Option String
  apiKeyEnv : Option String
  lat : Option ℚ
  lon : Option ℚ
  zoom : Option ℤ
  location : Option String
  geo : GeoOutcome
  deviceStatus : Option StatusJson
  tile : FetchOutcome
  tileImage : AbsImage
  pillow : Bool
  pilFails : Bool
  post : FetchOutcome

/-- Error conditions the map command reports before exiting with status 1. -/
inductive MapError where
  | missingKey
  | geocodeFail
  | notFound
  | missingCoords
  | invalidApiKey
  | httpFail (status : ℕ)
  | otherFail
deriving DecidableEq

/-- Outcome of the coordinate-resolution stage, lines 198-274. -/
inductive CoordStage where
  | fail (e : MapError)
  | ok (geocoded : Bool) (lat : ℚ) (lon : ℚ) (zoom : ℤ)
deriving DecidableEq

/-- Lines 198-274: when a location is given, geocode it — the center comes
from the bounding-box midpoints when a box is present, else the point
coordinates; the zoom, when not pinned by the caller, comes from the
bounding-box span heuristic or defaults to 14 without a box.  Without a
location, explicit `--lat`/`--lon` are required and a missing zoom defaults
to 15 (line 274). -/
def coordStage (inp : MapInput) : CoordStage :=
  if truthy inp.location then
    match inp.geo with
    | GeoOutcome.reqFail => CoordStage.fail MapError.geocodeFail
    | GeoOutcome.ok [] => CoordStage.fail MapError.notFound
    | GeoOutcome.ok (r :: _) =>
      let la : ℚ :=
        match r.boundingbox with
        | some b => (b.south + b.north) / 2
        | none => r.lat
      let lo : ℚ :=
        match r.boundingbox with
        | some b => (b.west + b.east) / 2
        | none => r.lon
      let zm : ℤ :=
        match inp.zoom with
        | some z => z
        | none =>
          match r.boundingbox with
          | some b => zoomForSpan (max (b.north - b.south) (b.east - b.west))
          | none => 14
      CoordStage.ok true la lo zm
  else
    match inp.lat, inp.lon with
    | some la, some lo => CoordStage.ok false la lo (inp.zoom.getD 15)
    | _, _ => CoordStage.fail MapError.missingCoords

/-- Observable result of one run of the map command. -/
structure MapResult where
  exit : ℕ
  err : Option MapError
  geocoded : Bool
  lat : Option ℚ
  lon : Option ℚ
  zoom : Option ℤ
  screen : Option Dim
  tileAttempted : Bool
  sent : Option JPEGOut
  sentRaw : Bool
  posted : Bool
  warnedNoPillow : Bool
  networkAttempted : Bool
deriving DecidableEq

/-- Map-command result for a failure before the tile fetch. -/
def mapFail (e : MapError) (geocoded net : Bool) : MapResult :=
  { exit := 1, err := some e, geocoded := geocoded, lat := none, lon := none,
    zoom := none, screen := none, tileAttempted := false, sent := none,
    sentRaw := false, posted := false, warnedNoPillow := false,
    networkAttempted := net }

/-- Map-command result skeleton once coordinates and screen geometry are
resolved. -/
def mapBase (geocoded : Bool) (la lo : ℚ) (zm : ℤ) (screen : Dim) : MapResult :=
  { exit := 0, err := none, geocoded := geocoded, lat := some la,
    lon := some lo, zoom := some zm, screen := some screen,
    tileAttempted := false, sent := none, sentRaw := false, posted := false,
    warnedNoPillow := false, networkAttempted := true }

/-- The map command, paper_cli.py lines 189-354.  The outer `try` at lines
302-354 covers the tile fetch, the processing block and the device POST;
its `except HTTPError` handler maps status 401 to the invalid-API-key
message (line 347) and any other status to a generic error (line 350), its
`except Exception` handler (line 352) catches everything else — including
a PIL processing failure escaping the inner handler, which catches only
`ImportError` (line 336) — and all of these end in `sys.exit(1)`. -/
def mapCommand (inp : MapInput) : MapResult :=
  if truthy (pyOr inp.apiKeyArg inp.apiKeyEnv) then
    match coordStage inp with
    | CoordStage.fail e => mapFail e (truthy inp.location) (truthy inp.location)
    | CoordStage.ok geo la lo zm =>
      let screen := screenStage inp.deviceStatus
      let base := mapBase geo la lo zm screen
      match inp.tile with
      | FetchOutcome.httpErr s =>
        if s = 401 then
          { base with exit := 1, err := some MapError.invalidApiKey, tileAttempted := true }
        else
          { base with exit := 1, err := some (MapError.httpFail s), tileAttempted := true }
      | FetchOutcome.connErr =>
        { base with exit := 1, err := some MapError.otherFail, tileAttempted := true }
      | FetchOutcome.ok =>
        if inp.pillow then
          if inp.pilFails then
            { base with exit := 1, err := some MapError.otherFail, tileAttempted := true }
          else
            let out := runMapProcess inp.tileImage screen
            match inp.post with
            | FetchOutcome.ok =>
              { base with tileAttempted := true, sent := some out, posted := true }
            | FetchOutcome.httpErr s =>
              { base with
                exit := 1,
                err := some (if s = 401 then MapError.invalidApiKey else MapError.httpFail s),
                tileAttempted := true, sent := some out, posted := true }
            | FetchOutcome.connErr =>
              { base with
                exit := 1, err := some MapError.otherFail,
                tileAttempted := true, sent := some out, posted := true }
        else
          match inp.post with
          | FetchOutcome.ok =>
            { base with
              tileAttempted := true, sentRaw := true, posted := true,
              warnedNoPillow := true }
          | FetchOutcome.httpErr s =>
            { base with
              exit := 1,
              err := some (if s = 401 then MapError.invalidApiKey else MapError.httpFail s),
              tileAttempted := true, sentRaw := true, posted := true,
              warnedNoPillow := true }
          | FetchOutcome.connErr =>
            { base with
              exit := 1, err := some MapError.otherFail,
              tileAttempted := true, sentRaw := true, posted := true,
              warnedNoPillow := true }
  else
    mapFail MapError.missingKey false false

/-- Observable result of the text command, paper_cli.py lines 69-75, given
the resolved text content: the POST is attempted once; any failure
(`raise_for_status` or connection error) is caught by the bare
`except Exception`, printed, and the function falls through — the process
exits with status 0 either way. -/
structure TextResult where
  exit : ℕ
  posted : Bool
  errorPrinted : Bool
deriving DecidableEq

/-- The delivery portion of the text command (lines 69-75). -/
def textCommand (post : FetchOutcome) : TextResult :=
  match post with
  | FetchOutcome.ok => { exit := 0, posted := true, errorPrinted := false }
  | FetchOutcome.httpErr _ => { exit := 0, posted := true, errorPrinted := true }
  | FetchOutcome.connErr => { exit := 0, posted := true, errorPrinted := true }

/-- Payload finally handed to the device POST of the image command: the raw
input bytes, or the processed JPEG. -/
inductive Payload where
  | raw
  | processed (out : JPEGOut)
deriving DecidableEq

/-- Observable result of the image command, paper_cli.py lines 104-160. -/
structure ImageResult where
  exit : ℕ
  payload : Option Payload
  posted : Bool
  warnedProcessing : Bool
  errorPrinted : Bool
deriving DecidableEq

/-- The image command from the point where the input bytes are resolved,
paper_cli.py lines 104-160.  Without Pillow and without `--force-raw` the
command exits 1 (line 121, a `SystemExit` not caught by the
`except Exception` at line 159); empty input exits 1 (line 126).  With
Pillow, the inner `try` at lines 129-152 catches ANY processing exception,
prints a warning and keeps the raw bytes.  The POST failure is caught by
the outer handler, printed, and the process exits 0. -/
def imageCommand (hasPillow forceRaw dataNonempty pilFails : Bool)
    (img : AbsImage) (post : FetchOutcome) : ImageResult :=
  if !hasPillow && !forceRaw then
    { exit := 1, payload := none, posted := false, warnedProcessing := false,
      errorPrinted := true }
  else if !dataNonempty then
    { exit := 1, payload := none, posted := false, warnedProcessing := false,
      errorPrinted := true }
  else
    let pl : Payload :=
      if hasPillow then
        if pilFails then Payload.raw else Payload.processed (runGeneric img)
      else Payload.raw
    let warned := hasPillow && pilFails
    match post with
    | FetchOutcome.ok =>
      { exit := 0, payload := some pl, posted := true, warnedProcessing := warned,
        errorPrinted := false }
    | FetchOutcome.httpErr _ =>
      { exit := 0, payload := some pl, posted := true, warnedProcessing := warned,
        errorPrinted := true }
    | FetchOutcome.connErr =>
      { exit := 0, payload := some pl, posted := true, warnedProcessing := warned,
        errorPrinted := true }

/-- One event observed by the stream command's read/send loop (lines
172-178): a line read from stdin, an operator interrupt raised during the
loop, or any other fault (for instance a send failure). -/
inductive StreamEvent where
  | line (s : String)
  | interrupt
  | fault
deriving DecidableEq

/-- How the stream command's loop ended. -/
inductive LoopEnd where
  | eof
  | interrupted
  | faulted
deriving DecidableEq

/-- Lines 172-178: consume events until end-of-input (an exhausted event
list models `readline` returning the empty string), an interrupt, or a
fault; return the lines sent to the socket and how the loop ended. -/
def runStreamLoop : List StreamEvent → List String × LoopEnd
  | [] => ([], LoopEnd.eof)
  | StreamEvent.line s :: rest =>
    let p := runStreamLoop rest
    (s :: p.1, p.2)
  | StreamEvent.interrupt :: _ => ([], LoopEnd.interrupted)
  | StreamEvent.fault :: _ => ([], LoopEnd.faulted)

/-- Observable result of the stream command, paper_cli.py lines 163-186. -/
structure StreamResult where
  exit : ℕ
  socketClosed : Bool
  sent : List String
  errorPrinted : Bool
deriving DecidableEq

/-- The `finally: s.close()` at lines 185-186. -/
def closeSocket (r : StreamResult) : StreamResult :=
  { r with socketClosed := true }

/-- The body of the stream command before the `finally` clause: connect,
loop, and the two `except` handlers (`KeyboardInterrupt` prints a message,
any other exception prints an error); no path calls `sys.exit`. -/
def streamBody (connectOk : Bool) (events : List StreamEvent) : StreamResult :=
  if connectOk then
    match runStreamLoop events with
    | (sent, LoopEnd.eof) =>
      { exit := 0, socketClosed := false, sent := sent, errorPrinted := false }
    | (sent, LoopEnd.interrupted) =>
      { exit := 0, socketClosed := false, sent := sent, errorPrinted := false }
    | (sent, LoopEnd.faulted) =>
      { exit := 0, socketClosed := false, sent := sent, errorPrinted := true }
  else
    { exit := 0, socketClosed := false, sent := [], errorPrinted := true }

/-- The stream command, paper_cli.py lines 163-186: the body wrapped in the
`finally` clause that closes the socket. -/
def streamCommand (connectOk : Bool) (events : List StreamEvent) : StreamResult :=
  closeSocket (streamBody connectOk events)

/-- JSON body of the device `/api/mqtt` response, with the fields the
client reads via `.get` (lines 377-380); `connected` is `some true` exactly
when the JSON value is truthy `true`. -/
structure MqttResponse where
  connected : Option Bool
  broker : Option String
  topic : Option String
deriving DecidableEq

/-- Outcome of the mqtt config POST at line 373: 2xx with a decoded JSON
body, an `HTTPError`, or any other failure (connection error, undecodable
body). -/
inductive MqttOutcome where
  | ok (r : MqttResponse)
  | httpErr (status : ℕ)
  | connErr
deriving DecidableEq

/-- Observable result of the mqtt command, paper_cli.py lines 357-396. -/
structure MqttResult where
  exit : ℕ
  success : Bool
  warned : Bool
  reportedBroker : Option String
  reportedTopic : Option String
  errorPrinted : Bool
deriving DecidableEq

/-- The mqtt command delivery stage, lines 372-396: on a 2xx response,
`result.get("connected")` truthy selects the success branch, which echoes
the broker and topic; otherwise the warning branch runs — neither calls
`sys.exit`, so the process exits 0.  An `HTTPError` or any other exception
prints an error and exits 1 (lines 386-396). -/
def mqttCommand (o : MqttOutcome) : MqttResult :=
  match o with
  | MqttOutcome.ok r =>
    if r.connected = some true then
      { exit := 0, success := true, warned := false, reportedBroker := r.broker,
        reportedTopic := r.topic, errorPrinted := false }
    else
      { exit := 0, success := false, warned := true, reportedBroker := none,
        reportedTopic := none, errorPrinted := false }
  | MqttOutcome.httpErr _ =>
    { exit := 1, success := false, warned := false, reportedBroker := none,
      reportedTopic := none, errorPrinted := true }
  | MqttOutcome.connErr =>
    { exit := 1, success := false, warned := false, reportedBroker := none,
      reportedTopic := none, errorPrinted := true }

/-- One dispatched command together with the oracle values its run
consumes. -/
inductive CommandRun where
  | text (post : FetchOutcome)
  | image (hasPillow forceRaw dataNonempty pilFails : Bool) (img : AbsImage)
      (post : FetchOutcome)
  | stream (connectOk : Bool) (events : List StreamEvent)
  | map (inp : MapInput)
  | mqtt (o : MqttOutcome)

/-- Exit status and whether any outbound network activity was attempted by
a dispatched command.  Text, stream and mqtt always attempt their call once
dispatched; the image command attempts its POST unless it exited during
input validation; the map command's first network activity is the geocode
request (when a location is given) or the device status query. -/
def runCommand : CommandRun → ℕ × Bool
  | CommandRun.text post => ((textCommand post).exit, true)
  | CommandRun.image hp fr dn pf img post =>
    let r := imageCommand hp fr dn pf img post
    (r.exit, r.posted)
  | CommandRun.stream ok ev => ((streamCommand ok ev).exit, true)
  | CommandRun.map inp =>
    let r := mapCommand inp
    (r.exit, r.networkAttempted)
  | CommandRun.mqtt o => ((mqttCommand o).exit, true)

/-- Observable result of one whole invocation of `main`. -/
structure RunResult where
  exit : ℕ
  usedIp : Option String
  networkAttempted : Bool
deriving DecidableEq

/-- Whole-invocation model, paper_cli.py lines 43-396: resolve the device
address first (lines 45-51, exiting 1 with no network activity when both
sources are falsy), then dispatch the requested command. -/
def runMain (argIp envIp : Option String) (c : CommandRun) : RunResult :=
  match ipStage argIp envIp with
  | IpStage.fail => { exit := 1, usedIp := none, networkAttempted := false }
  | IpStage.ok _ =>
    let p := runCommand c
    { exit := p.1, usedIp := resolveIp argIp envIp, networkAttempted := p.2 }

/-- A sample decoded tile image used by the concrete witnesses below. -/
def tileImg0 : AbsImage :=
  { dim := { w := 1920, h := 1080 }, mode := PILMode.RGB, contrast := 1 }

/-- Geocoder result with a bounding box spanning 1 degree. -/
def geoRes0 : GeoResult :=
  { lat := 10, lon := 20,
    boundingbox := some { south := 52, north := 53, west := 13, east := 14 } }

/-- A fully successful location-based run of the map command. -/
def mapInp0 : MapInput :=
  { apiKeyArg := some "key123", apiKeyEnv := none, lat := some 1, lon := some 2,
    zoom := none, location := some "Berlin, Germany",
    geo := GeoOutcome.ok [geoRes0],
    deviceStatus := some { screen_width := some 800, screen_height := some 480 },
    tile := FetchOutcome.ok, tileImage := tileImg0, pillow := true,
    pilFails := false, post := FetchOutcome.ok }

/-- Geocoder result whose bounding box spans 20 degrees of latitude. -/
def geoResWide : GeoResult :=
  { lat := 1, lon := 2,
    boundingbox := some { south := 0, north := 20, west := 0, east := 4 } }

/-- Map-command run hitting a 20-degree bounding box with no pinned zoom. -/
def mapInpWide : MapInput :=
  { mapInp0 with geo := GeoOutcome.ok [geoResWide] }

/-- Map-command run whose PIL processing raises after a successful tile
fetch. -/
def mapInpPilFail : MapInput :=
  { mapInp0 with pilFails := true }

/-- A 100x100 RGB input image, small enough to fit the 960x960 box
untouched. -/
def imgSmall : AbsImage :=
  { dim := { w := 100, h := 100 }, mode := PILMode.RGB, contrast := 1 }

/-- Once the API key is present and the coordinate stage succeeded, every
later branch of the map command carries the resolved coordinates, zoom and
geocode flag unchanged, and never reports the missing-coordinates error. -/
theorem mapCommand_ok_fields (inp : MapInput) (geo : Bool) (la lo : ℚ) (zm : ℤ)
    (hkey : truthy (pyOr inp.apiKeyArg inp.apiKeyEnv) = true)
    (hc : coordStage inp = CoordStage.ok geo la lo zm) :
    (mapCommand inp).zoom = some zm
    ∧ (mapCommand inp).lat = some la
    ∧ (mapCommand inp).lon = some lo
    ∧ (mapCommand inp).geocoded = geo
    ∧ (mapCommand inp).err ≠ some MapError.missingCoords := by
  unfold mapCommand
  rw [hkey, hc]
  cases htile : inp.tile <;> cases hpil : inp.pillow <;> cases hpf : inp.pilFails <;>
    cases hpost : inp.post <;> simp [mapBase, mapFail] <;> split_ifs <;> simp

/-- C9: the stream command closes its TCP socket on every exit path —
normal end of input, operator interrupt, a fault in the read/send loop, or
a connection failure — because the socket close runs in a `finally`
clause. -/
theorem C9_stream_socket_always_closed (connectOk : Bool) (events : List StreamEvent) :
    (streamCommand connectOk events).socketClosed = true ∧ (streamCommand connectOk events).exit = 0 := by
  constructor
  · simp [streamCommand, closeSocket]
  · unfold streamCommand streamBody closeSocket
    split
    · split <;> simp
    · simp

/-- C8: when the mqtt config POST succeeds but the response reports
`connected` false or omits it, the command prints a warning and the process
exits 0; when `connected` is true the success branch echoes the broker and
topic from the response. -/
theorem C8_mqtt_connected_handling (r : MqttResponse) :
    ((r.connected = some false ∨ r.connected = none) →
      (mqttCommand (MqttOutcome.ok r)).exit = 0
        ∧ (mqttCommand (MqttOutcome.ok r)).warned = true
        ∧ (mqttCommand (MqttOutcome.ok r)).errorPrinted = false)
    ∧ (r.connected = some true →
      (mqttCommand (MqttOutcome.ok r)).exit = 0
        ∧ (mqttCommand (MqttOutcome.ok r)).warned = false
        ∧ (mqttCommand (MqttOutcome.ok r)).reportedBroker = r.broker
        ∧ (mqttCommand (MqttOutcome.ok r)).reportedTopic = r.topic) := by
  constructor
  · intro h
    have hne : ¬ r.connected = some true := by
      rcases h with h | h <;> simp [h]
    simp [mqttCommand, hne]
  · intro h
    simp [mqttCommand, h]

/-- Witness for C8 at a concrete response with `connected` false, and a
concrete response with `connected` true echoing broker and topic. -/
theorem C8_witness :
    (({ connected := some false, broker := some "b", topic := some "t" } : MqttResponse).connected
        = some false
      ∨ ({ connected := some false, broker := some "b", topic := some "t" } : MqttResponse).connected
        = none)
    ∧ (mqttCommand (MqttOutcome.ok
        { connected := some false, broker := some "b", topic := some "t" })).exit = 0
    ∧ (mqttCommand (MqttOutcome.ok
        { connected := some false, broker := some "b", topic := some "t" })).warned = true
    ∧ (mqttCommand (MqttOutcome.ok
        { connected := some true, broker := some "b", topic := some "t" })).reportedBroker
        = some "b" := by
  have h1 := (C8_mqtt_connected_handling
    { connected := some false, broker := some "b", topic := some "t" }).1 (Or.inl rfl)
  have h2 := (C8_mqtt_connected_handling
    { connected := some true, broker := some "b", topic := some "t" }).2 rfl
  exact ⟨Or.inl rfl, h1.1, h1.2.1, h2.2.2.1⟩

/-- C7: the device endpoint is the first truthy value of the explicit
`--ip` argument and the `PAPER_IP` environment fallback; the explicit value
always wins when truthy, and when both are absent or empty the process
exits with status 1 before attempting any network call, for every
command. -/
theorem C7_endpoint_resolution (argIp envIp : Option String) (c : CommandRun) :
    (truthy argIp = true → (runMain argIp envIp c).usedIp = argIp)
    ∧ (truthy argIp = false → truthy envIp = true →
        (runMain argIp envIp c).usedIp = envIp)
    ∧ (truthy argIp = false → truthy envIp = false →
        (runMain argIp envIp c).exit = 1
          ∧ (runMain argIp envIp c).networkAttempted = false) := by
  refine ⟨fun h1 => ?_, fun h1 h2 => ?_, fun h1 h2 => ?_⟩ <;>
    cases argIp <;> cases envIp <;>
      simp_all [runMain, ipStage, resolveIp, pyOr, truthy]

/-- Witness for C7: a truthy explicit address wins over the environment
value, and two absent sources exit 1 with no network activity. -/
theorem C7_witness :
    truthy (some "10.0.0.2") = true
    ∧ (runMain (some "10.0.0.2") (some "envhost")
        (CommandRun.text FetchOutcome.ok)).usedIp = some "10.0.0.2"
    ∧ truthy (none : Option String) = false
    ∧ (runMain none none (CommandRun.text FetchOutcome.ok)).exit = 1
    ∧ (runMain none none (CommandRun.text FetchOutcome.ok)).networkAttempted = false := by
  have h1 := (C7_endpoint_resolution (some "10.0.0.2") (some "envhost")
    (CommandRun.text FetchOutcome.ok)).1 rfl
  have h2 := (C7_endpoint_resolution none none (CommandRun.text FetchOutcome.ok)).2.2 rfl rfl
  exact ⟨rfl, h1, rfl, h2.1, h2.2⟩

/-- C1: for the map command with a location name and no caller-pinned zoom,
a geocode result with a bounding box resolves the zoom through the
strict descending thresholds on `maxSpan = max(latSpan, lonSpan)`
(> 10 gives 5, > 5 gives 7, > 1 gives 10, > 0.1 gives 13, > 0.01 gives 15,
otherwise 16), and a result without a bounding box resolves to the fixed
default 14. -/
theorem C1_map_zoom_heuristic (inp : MapInput) (r : GeoResult) (rest : List GeoResult)
    (hkey : truthy (pyOr inp.apiKeyArg inp.apiKeyEnv) = true)
    (hloc : truthy inp.location = true)
    (hgeo : inp.geo = GeoOutcome.ok (r :: rest))
    (hz : inp.zoom = none) :
    (∀ b : BBox, r.boundingbox = some b →
      (mapCommand inp).zoom = some (zoomForSpan (max (b.north - b.south) (b.east - b.west))))
    ∧ (r.boundingbox = none → (mapCommand inp).zoom = some 14)
    ∧ (∀ m : ℚ,
        (10 < m → zoomForSpan m = 5)
        ∧ (5 < m → m ≤ 10 → zoomForSpan m = 7)
        ∧ (1 < m → m ≤ 5 → zoomForSpan m = 10)
        ∧ (1 / 10 < m → m ≤ 1 → zoomForSpan m = 13)
        ∧ (1 / 100 < m → m ≤ 1 / 10 → zoomForSpan m = 15)
        ∧ (m ≤ 1 / 100 → zoomForSpan m = 16)) := by
  refine ⟨?_, ?_, ?_⟩
  · intro b hb
    have hc : coordStage inp = CoordStage.ok true ((b.south + b.north) / 2)
        ((b.west + b.east) / 2)
        (zoomForSpan (max (b.north - b.south) (b.east - b.west))) := by
      unfold coordStage
      rw [hloc, hgeo, hz]
      simp [hb]
    exact (mapCommand_ok_fields inp true _ _ _ hkey hc).1
  · intro hb
    have hc : coordStage inp = CoordStage.ok true r.lat r.lon 14 := by
      unfold coordStage
      rw [hloc, hgeo, hz]
      simp [hb]
    exact (mapCommand_ok_fields inp true _ _ _ hkey hc).1
  · intro m
    refine ⟨fun h1 => ?_, fun h1 h2 => ?_, fun h1 h2 => ?_, fun h1 h2 => ?_,
      fun h1 h2 => ?_, fun h1 => ?_⟩ <;>
      · unfold zoomForSpan
        split_ifs <;> first | rfl | linarith

/-- Witness for C1: a bounding box spanning 20 degrees resolves to zoom 5,
and a result without a bounding box resolves to zoom 14. -/
theorem C1_witness :
    truthy (pyOr mapInpWide.apiKeyArg mapInpWide.apiKeyEnv) = true
    ∧ truthy mapInpWide.location = true
    ∧ mapInpWide.geo = GeoOutcome.ok [geoResWide]
    ∧ mapInpWide.zoom = none
    ∧ (mapCommand mapInpWide).zoom = some 5 := by
  have h := (C1_map_zoom_heuristic mapInpWide geoResWide [] rfl rfl rfl rfl).1
    { south := 0, north := 20, west := 0, east := 4 } rfl
  refine ⟨rfl, rfl, rfl, rfl, ?_⟩
  rw [h]
  norm_num [zoomForSpan]

/-- C10 (implicit): supplying both a location and explicit `--lat`/`--lon`
reports no mutual-exclusion error; the geocoder runs and its bounding-box
midpoint coordinates silently replace the explicit values, and when
`--zoom` is also absent the heuristic zoom is used. -/
theorem C10_location_overrides_explicit_coords (inp : MapInput) (r : GeoResult)
    (rest : List GeoResult) (b : BBox)
    (hkey : truthy (pyOr inp.apiKeyArg inp.apiKeyEnv) = true)
    (hloc : truthy inp.location = true)
    (hlat : inp.lat.isSome = true) (hlon : inp.lon.isSome = true)
    (hgeo : inp.geo = GeoOutcome.ok (r :: rest))
    (hbb : r.boundingbox = some b) :
    (mapCommand inp).geocoded = true
    ∧ (mapCommand inp).err ≠ some MapError.missingCoords
    ∧ (mapCommand inp).lat = some ((b.south + b.north) / 2)
    ∧ (mapCommand inp).lon = some ((b.west + b.east) / 2)
    ∧ (inp.zoom = none →
        (mapCommand inp).zoom
          = some (zoomForSpan (max (b.north - b.south) (b.east - b.west)))) := by
  have hc : ∀ zmv, coordStage inp
      = CoordStage.ok true ((b.south + b.north) / 2) ((b.west + b.east) / 2) zmv →
      (mapCommand inp).geocoded = true
      ∧ (mapCommand inp).err ≠ some MapError.missingCoords
      ∧ (mapCommand inp).lat = some ((b.south + b.north) / 2)
      ∧ (mapCommand inp).lon = some ((b.west + b.east) / 2) := by
    intro zmv hcs
    have h := mapCommand_ok_fields inp true _ _ _ hkey hcs
    exact ⟨h.2.2.2.1, h.2.2.2.2, h.2.1, h.2.2.1⟩
  cases hz : inp.zoom with
  | none =>
    have hcs : coordStage inp = CoordStage.ok true ((b.south + b.north) / 2)
        ((b.west + b.east) / 2)
        (zoomForSpan (max (b.north - b.south) (b.east - b.west))) := by
      unfold coordStage
      rw [hloc, hgeo, hz]
      simp [hbb]
    have h := mapCommand_ok_fields inp true _ _ _ hkey hcs
    exact ⟨(hc _ hcs).1, (hc _ hcs).2.1, (hc _ hcs).2.2.1, (hc _ hcs).2.2.2,
      fun _ => h.1⟩
  | some z =>
    have hcs : coordStage inp = CoordStage.ok true ((b.south + b.north) / 2)
        ((b.west + b.east) / 2) z := by
      unfold coordStage
      rw [hloc, hgeo, hz]
      simp [hbb]
    exact ⟨(hc _ hcs).1, (hc _ hcs).2.1, (hc _ hcs).2.2.1, (hc _ hcs).2.2.2,
      fun hzn => Option.noConfusion hzn⟩

/-- Witness for C10: `mapInp0` supplies a location together with explicit
coordinates 1, 2 and no zoom; the run geocodes, resolves the bounding-box
midpoint 52.5, 13.5 and the heuristic zoom 13 for a 1-degree span. -/
theorem C10_witness :
    truthy (pyOr mapInp0.apiKeyArg mapInp0.apiKeyEnv) = true
    ∧ truthy mapInp0.location = true
    ∧ mapInp0.lat.isSome = true
    ∧ mapInp0.lon.isSome = true
    ∧ mapInp0.geo = GeoOutcome.ok [geoRes0]
    ∧ (mapCommand mapInp0).geocoded = true
    ∧ (mapCommand mapInp0).lat = some ((105 : ℚ) / 2)
    ∧ (mapCommand mapInp0).zoom = some 13 := by
  have h := C10_location_overrides_explicit_coords mapInp0 geoRes0 []
    { south := 52, north := 53, west := 13, east := 14 } rfl rfl rfl rfl rfl rfl
  refine ⟨rfl, rfl, rfl, rfl, rfl, h.1, ?_, ?_⟩
  · rw [h.2.2.1]
    norm_num
  · rw [h.2.2.2.2 rfl]
    norm_num [zoomForSpan]

/-- C4: when the static-map tile fetch fails, no request is sent to the
device and the command exits with status 1; an HTTP 401 from the tile
service is reported specifically as the invalid-API-key failure, any other
HTTP failure as the generic upstream HTTP failure, and a connection-level
failure as the generic failure. -/
theorem C4_tile_fetch_failure (inp : MapInput) (geo : Bool) (la lo : ℚ) (zm : ℤ)
    (hkey : truthy (pyOr inp.apiKeyArg inp.apiKeyEnv) = true)
    (hc : coordStage inp = CoordStage.ok geo la lo zm) :
    (∀ s, inp.tile = FetchOutcome.httpErr s →
      (mapCommand inp).posted = false
        ∧ (mapCommand inp).exit = 1
        ∧ (s = 401 → (mapCommand inp).err = some MapError.invalidApiKey)
        ∧ (s ≠ 401 → (mapCommand inp).err = some (MapError.httpFail s)))
    ∧ (inp.tile = FetchOutcome.connErr →
      (mapCommand inp).posted = false
        ∧ (mapCommand inp).exit = 1
        ∧ (mapCommand inp).err = some MapError.otherFail) := by
  constructor
  · intro s htile
    unfold mapCommand
    rw [hkey, hc, htile]
    by_cases h401 : s = 401 <;> simp [mapBase, h401]
  · intro htile
    unfold mapCommand
    rw [hkey, hc, htile]
    simp [mapBase]

/-- Witness for C4: a 401 tile response on the `mapInp0` run aborts with
the invalid-API-key failure, exit 1 and no device POST. -/
theorem C4_witness :
    truthy (pyOr mapInp0.apiKeyArg mapInp0.apiKeyEnv) = true
    ∧ coordStage { mapInp0 with tile := FetchOutcome.httpErr 401 }
        = CoordStage.ok true ((105 : ℚ) / 2) ((27 : ℚ) / 2) 13
    ∧ (mapCommand { mapInp0 with tile := FetchOutcome.httpErr 401 }).posted = false
    ∧ (mapCommand { mapInp0 with tile := FetchOutcome.httpErr 401 }).exit = 1
    ∧ (mapCommand { mapInp0 with tile := FetchOutcome.httpErr 401 }).err
        = some MapError.invalidApiKey := by
  have hcs : coordStage { mapInp0 with tile := FetchOutcome.httpErr 401 }
      = CoordStage.ok true ((105 : ℚ) / 2) ((27 : ℚ) / 2) 13 := by
    unfold coordStage
    norm_num [mapInp0, geoRes0, zoomForSpan, truthy]
    decide
  have h := (C4_tile_fetch_failure { mapInp0 with tile := FetchOutcome.httpErr 401 }
    true ((105 : ℚ) / 2) ((27 : ℚ) / 2) 13 rfl hcs).1 401 rfl
  exact ⟨rfl, hcs, h.1, h.2.1, h.2.2.1 rfl⟩

/-- C5: a map-sourced image with processing available is resized to the
device's exact reported geometry, grayscaled, contrast-boosted by the fixed
factor 1.2, converted back to RGB and encoded as JPEG quality 90, while the
generic image path encodes at quality 85. -/
theorem C5_map_processing_pipeline (inp : MapInput) (geo : Bool) (la lo : ℚ) (zm : ℤ)
    (hkey : truthy (pyOr inp.apiKeyArg inp.apiKeyEnv) = true)
    (hc : coordStage inp = CoordStage.ok geo la lo zm)
    (htile : inp.tile = FetchOutcome.ok)
    (hp : inp.pillow = true) (hpf : inp.pilFails = false) :
    (mapCommand inp).sent
      = some (runMapProcess inp.tileImage (screenStage inp.deviceStatus))
    ∧ (runMapProcess inp.tileImage (screenStage inp.deviceStatus)).image.dim
      = screenStage inp.deviceStatus
    ∧ (runMapProcess inp.tileImage (screenStage inp.deviceStatus)).image.mode
      = PILMode.RGB
    ∧ (runMapProcess inp.tileImage (screenStage inp.deviceStatus)).image.contrast
      = inp.tileImage.contrast * ((6 : ℚ) / 5)
    ∧ (runMapProcess inp.tileImage (screenStage inp.deviceStatus)).quality = 90
    ∧ PILOp.convert PILMode.L ∈ mapOps inp.tileImage (screenStage inp.deviceStatus)
    ∧ (∀ img : AbsImage, (runGeneric img).quality = 85) := by
  refine ⟨?_, ?_, ?_, ?_, rfl, ?_, fun _ => rfl⟩
  · unfold mapCommand
    rw [hkey, hc, htile, hp, hpf]
    cases hpost : inp.post <;> simp [mapBase] <;> split_ifs <;> simp
  · by_cases hd : inp.tileImage.dim = screenStage inp.deviceStatus <;>
      simp [runMapProcess, mapOps, applyOps, applyOp, hd]
  · by_cases hd : inp.tileImage.dim = screenStage inp.deviceStatus <;>
      simp [runMapProcess, mapOps, applyOps, applyOp, hd]
  · by_cases hd : inp.tileImage.dim = screenStage inp.deviceStatus <;>
      simp [runMapProcess, mapOps, applyOps, applyOp, hd]
  · by_cases hd : inp.tileImage.dim = screenStage inp.deviceStatus <;>
      simp [mapOps, hd]

/-- Witness for C5: the fully successful `mapInp0` run sends the 1920x1080
tile resized to the reported 800x480 screen, grayscaled, contrast-boosted
by 1.2, re-encoded as RGB JPEG quality 90. -/
theorem C5_witness :
    truthy (pyOr mapInp0.apiKeyArg mapInp0.apiKeyEnv) = true
    ∧ mapInp0.tile = FetchOutcome.ok
    ∧ mapInp0.pillow = true
    ∧ mapInp0.pilFails = false
    ∧ (mapCommand mapInp0).sent
        = some (runMapProcess tileImg0 { w := 800, h := 480 })
    ∧ (runMapProcess tileImg0 { w := 800, h := 480 }).image.dim
        = { w := 800, h := 480 }
    ∧ (runMapProcess tileImg0 { w := 800, h := 480 }).quality = 90
    ∧ (runGeneric imgSmall).quality = 85 := by
  have hcs : coordStage mapInp0 = CoordStage.ok true ((105 : ℚ) / 2) ((27 : ℚ) / 2) 13 := by
    unfold coordStage
    norm_num [mapInp0, geoRes0, zoomForSpan, truthy]
    decide
  have h := C5_map_processing_pipeline mapInp0 true ((105 : ℚ) / 2) ((27 : ℚ) / 2) 13
    rfl hcs rfl rfl rfl
  refine ⟨rfl, rfl, rfl, rfl, ?_, ?_, rfl, rfl⟩
  · have h1 := h.1
    simpa [mapInp0, screenStage] using h1
  · have h2 := h.2.1
    simpa [mapInp0, screenStage] using h2

/-- Counterexample to C3 as stated: a delivery failure (HTTP 503 from the
device) on the mqtt command makes the process exit with status 1, not 0. -/
theorem C3_counterexample :
    (runMain (some "1.2.3.4") none
        (CommandRun.mqtt (MqttOutcome.httpErr 503))).exit ≠ 0 := by
  simp [runMain, ipStage, resolveIp, pyOr, truthy, runCommand, mqttCommand]

/-- C3 amended: a delivery failure is printed and the process exits with
status 0 for the text, image and stream commands, but the map and mqtt
commands print the error and exit with status 1 on a delivery failure. -/
theorem C3_amended_delivery_failure_exits (p : FetchOutcome)
    (hp : p ≠ FetchOutcome.ok) (forceRaw pilFails : Bool) (img : AbsImage)
    (inp : MapInput) (geo : Bool) (la lo : ℚ) (zm : ℤ)
    (hkey : truthy (pyOr inp.apiKeyArg inp.apiKeyEnv) = true)
    (hc : coordStage inp = CoordStage.ok geo la lo zm)
    (htile : inp.tile = FetchOutcome.ok)
    (hpill : inp.pillow = true) (hpf : inp.pilFails = false)
    (hpost : inp.post = p) :
    ((textCommand p).exit = 0 ∧ (textCommand p).errorPrinted = true)
    ∧ ((imageCommand true forceRaw true pilFails img p).exit = 0
        ∧ (imageCommand true forceRaw true pilFails img p).errorPrinted = true)
    ∧ (∀ events, (streamCommand false events).exit = 0
        ∧ (streamCommand false events).errorPrinted = true)
    ∧ ((mapCommand inp).posted = true ∧ (mapCommand inp).exit = 1)
    ∧ (∀ s, (mqttCommand (MqttOutcome.httpErr s)).exit = 1)
    ∧ (mqttCommand MqttOutcome.connErr).exit = 1 := by
  refine ⟨?_, ?_, ?_, ?_, fun s => rfl, rfl⟩
  · cases p with
    | ok => exact absurd rfl hp
    | httpErr s => exact ⟨rfl, rfl⟩
    | connErr => exact ⟨rfl, rfl⟩
  · cases p with
    | ok => exact absurd rfl hp
    | httpErr s => cases pilFails <;> simp [imageCommand]
    | connErr => cases pilFails <;> simp [imageCommand]
  · intro events
    exact ⟨rfl, rfl⟩
  · unfold mapCommand
    rw [hkey, hc, htile, hpill, hpf, hpost]
    cases p with
    | ok => exact absurd rfl hp
    | httpErr s => by_cases h401 : s = 401 <;> simp [mapBase, h401]
    | connErr => simp [mapBase]

/-- Witness for the amended C3 at concrete inputs: HTTP 503 delivery
failures keep text and image at exit 0 while map and mqtt exit 1. -/
theorem C3_witness :
    FetchOutcome.httpErr 503 ≠ FetchOutcome.ok
    ∧ (textCommand (FetchOutcome.httpErr 503)).exit = 0
    ∧ (imageCommand true false true false imgSmall (FetchOutcome.httpErr 503)).exit = 0
    ∧ (streamCommand false []).exit = 0
    ∧ (mapCommand { mapInp0 with post := FetchOutcome.httpErr 503 }).exit = 1
    ∧ (mqttCommand (MqttOutcome.httpErr 503)).exit = 1 := by
  have hcs : coordStage { mapInp0 with post := FetchOutcome.httpErr 503 }
      = CoordStage.ok true ((105 : ℚ) / 2) ((27 : ℚ) / 2) 13 := by
    unfold coordStage
    norm_num [mapInp0, geoRes0, zoomForSpan, truthy]
    decide
  have h := C3_amended_delivery_failure_exits (FetchOutcome.httpErr 503)
    (by simp) false false imgSmall { mapInp0 with post := FetchOutcome.httpErr 503 }
    true ((105 : ℚ) / 2) ((27 : ℚ) / 2) 13 rfl hcs rfl rfl rfl rfl
  exact ⟨by simp, h.1.1, h.2.1.1, (h.2.2.1 []).1, h.2.2.2.1.2, h.2.2.2.2.1 503⟩

/-- Counterexample to C6 as stated: on the map path, a PIL processing
failure (with Pillow installed) does not degrade to raw passthrough — the
command aborts with exit status 1 and the device POST never happens. -/
theorem C6_counterexample :
    mapInpPilFail.pillow = true
    ∧ mapInpPilFail.pilFails = true
    ∧ mapInpPilFail.tile = FetchOutcome.ok
    ∧ (mapCommand mapInpPilFail).posted = false
    ∧ (mapCommand mapInpPilFail).exit ≠ 0 := by
  have hcs : coordStage mapInpPilFail
      = CoordStage.ok true ((105 : ℚ) / 2) ((27 : ℚ) / 2) 13 := by
    unfold coordStage
    norm_num [mapInpPilFail, mapInp0, geoRes0, zoomForSpan, truthy]
    decide
  have hkey : truthy (pyOr mapInpPilFail.apiKeyArg mapInpPilFail.apiKeyEnv) = true := rfl
  refine ⟨rfl, rfl, rfl, ?_, ?_⟩ <;>
    · unfold mapCommand
      rw [hkey, hcs]
      simp [mapInpPilFail, mapInp0, mapBase]

/-- C6 amended: on the generic image path any processing failure degrades
to raw passthrough with a warning and the device POST still happens; on the
map path only a missing Pillow installation degrades to raw passthrough
with a warning, while any decode/resize/encode failure with Pillow present
aborts the command with exit 1 before the device POST. -/
theorem C6_amended_processing_fallback (img : AbsImage) (post : FetchOutcome)
    (inp : MapInput) (geo : Bool) (la lo : ℚ) (zm : ℤ)
    (hkey : truthy (pyOr inp.apiKeyArg inp.apiKeyEnv) = true)
    (hc : coordStage inp = CoordStage.ok geo la lo zm)
    (htile : inp.tile = FetchOutcome.ok) :
    ((imageCommand true false true true img post).payload = some Payload.raw
      ∧ (imageCommand true false true true img post).warnedProcessing = true
      ∧ (imageCommand true false true true img post).posted = true
      ∧ (imageCommand true false true true img post).exit = 0)
    ∧ (inp.pillow = false →
        (mapCommand inp).sentRaw = true
        ∧ (mapCommand inp).warnedNoPillow = true
        ∧ (mapCommand inp).posted = true)
    ∧ (inp.pillow = true → inp.pilFails = true →
        (mapCommand inp).posted = false
        ∧ (mapCommand inp).exit = 1
        ∧ (mapCommand inp).sent = none
        ∧ (mapCommand inp).sentRaw = false) := by
  refine ⟨?_, ?_, ?_⟩
  · cases post <;> simp [imageCommand]
  · intro hpill
    unfold mapCommand
    rw [hkey, hc, htile, hpill]
    cases hpost : inp.post <;> simp [mapBase] <;> split_ifs <;> simp
  · intro hpill hpf
    unfold mapCommand
    rw [hkey, hc, htile, hpill, hpf]
    simp [mapBase]

/-- Witness for the amended C6: a generic-path processing failure still
posts raw data at exit 0, while the map run `mapInpPilFail` aborts at exit
1 without posting. -/
theorem C6_witness :
    mapInpPilFail.pillow = true
    ∧ mapInpPilFail.pilFails = true
    ∧ (imageCommand true false true true imgSmall FetchOutcome.ok).payload
        = some Payload.raw
    ∧ (imageCommand true false true true imgSmall FetchOutcome.ok).posted = true
    ∧ (mapCommand mapInpPilFail).posted = false
    ∧ (mapCommand mapInpPilFail).exit = 1 := by
  have hcs : coordStage mapInpPilFail
      = CoordStage.ok true ((105 : ℚ) / 2) ((27 : ℚ) / 2) 13 := by
    unfold coordStage
    norm_num [mapInpPilFail, mapInp0, geoRes0, zoomForSpan, truthy]
    decide
  have h := C6_amended_processing_fallback imgSmall FetchOutcome.ok mapInpPilFail
    true ((105 : ℚ) / 2) ((27 : ℚ) / 2) 13 rfl hcs rfl
  exact ⟨rfl, rfl, h.1.1, h.1.2.2.1, (h.2.2 rfl rfl).1, (h.2.2 rfl rfl).2.1⟩

/-- Python round never exceeds the floor plus one. -/
theorem pyRound_le_floor_add_one (q : ℚ) : pyRound q ≤ ⌊q⌋ + 1 := by
  unfold pyRound
  split_ifs <;> omega

/-- Python round of a value strictly below a natural bound stays at or
below the bound. -/
theorem pyRound_le_of_lt (q : ℚ) (n : ℕ) (h : q < (n : ℚ)) : pyRound q ≤ (n : ℤ) := by
  have h1 : ⌊q⌋ < (n : ℤ) := by
    rw [Int.floor_lt]
    exact_mod_cast h
  have h2 := pyRound_le_floor_add_one q
  omega

/-- The dimensions of the generic pipeline's output are exactly the
contain-fit dimensions. -/
theorem runGeneric_dim (img : AbsImage) :
    (runGeneric img).image.dim = containSize img.dim { w := 960, h := 960 } := by
  by_cases hm : img.mode = PILMode.RGB <;>
    simp [runGeneric, genericOps, applyOps, applyOp, hm]

/-- Contain-fit into the 960x960 box: the output always fits in the box,
the longer axis is pinned to 960 with the other axis rounded
proportionally, and a square image is scaled to the full 960x960 box. -/
theorem containSize_box960 (d : Dim) (hw : 0 < d.w) (hh : 0 < d.h) :
    (containSize d { w := 960, h := 960 }).w ≤ 960
    ∧ (containSize d { w := 960, h := 960 }).h ≤ 960
    ∧ (d.h < d.w →
        (containSize d { w := 960, h := 960 }).w = 960
        ∧ (containSize d { w := 960, h := 960 }).h
            = (pyRound ((d.h : ℚ) / (d.w : ℚ) * 960)).toNat)
    ∧ (d.w < d.h →
        (containSize d { w := 960, h := 960 }).h = 960
        ∧ (containSize d { w := 960, h := 960 }).w
            = (pyRound ((d.w : ℚ) / (d.h : ℚ) * 960)).toNat)
    ∧ (d.w = d.h → containSize d { w := 960, h := 960 } = { w := 960, h := 960 }) := by
  have hw0 : (0 : ℚ) < (d.w : ℚ) := by exact_mod_cast hw
  have hh0 : (0 : ℚ) < (d.h : ℚ) := by exact_mod_cast hh
  have heq1 : ((d.w : ℚ) / (d.h : ℚ) = 1) ↔ d.w = d.h := by
    rw [div_eq_one_iff_eq (ne_of_gt hh0)]
    exact Nat.cast_inj
  have hgt1 : (1 < (d.w : ℚ) / (d.h : ℚ)) ↔ d.h < d.w := by
    rw [one_lt_div hh0]
    exact Nat.cast_lt
  have hlt1 : ((d.w : ℚ) / (d.h : ℚ) < 1) ↔ d.w < d.h := by
    rw [div_lt_one hh0]
    exact Nat.cast_lt
  have hboundL : d.h < d.w → pyRound ((d.h : ℚ) / (d.w : ℚ) * 960) ≤ 960 := by
    intro hdw
    have h1 : (d.h : ℚ) / (d.w : ℚ) < 1 := (div_lt_one hw0).mpr (by exact_mod_cast hdw)
    have hq : (d.h : ℚ) / (d.w : ℚ) * 960 < ((960 : ℕ) : ℚ) := by
      push_cast
      nlinarith
    have h2 := pyRound_le_of_lt _ 960 hq
    omega
  have hboundP : d.w < d.h → pyRound ((d.w : ℚ) / (d.h : ℚ) * 960) ≤ 960 := by
    intro hdw
    have h1 : (d.w : ℚ) / (d.h : ℚ) < 1 := (div_lt_one hh0).mpr (by exact_mod_cast hdw)
    have hq : (d.w : ℚ) / (d.h : ℚ) * 960 < ((960 : ℕ) : ℚ) := by
      push_cast
      nlinarith
    have h2 := pyRound_le_of_lt _ 960 hq
    omega
  refine ⟨?_, ?_, ?_, ?_, ?_⟩
  · unfold containSize
    split_ifs with h1 h2 h3 h4 <;> norm_num
    have hdw : d.w < d.h := by
      norm_num at h1 h2
      rcases lt_trichotomy ((d.w : ℚ) / (d.h : ℚ)) 1 with hx | hx | hx
      · exact hlt1.mp hx
      · exact absurd hx h1
      · exact absurd hx (by linarith)
    exact hboundP hdw
  · unfold containSize
    split_ifs with h1 h2 h3 h4 <;> norm_num
    have hdw : d.h < d.w := by
      norm_num at h2
      exact hgt1.mp h2
    exact hboundL hdw
  · intro hdw
    unfold containSize
    split_ifs with h1 h2 h3 h4 <;> norm_num
    · norm_num at h1
      rw [heq1] at h1
      omega
    · norm_num at h3
      omega
    · norm_num at h1 h2
      exact absurd (hgt1.mpr hdw) (by linarith)
    · norm_num at h1 h2
      exact absurd (hgt1.mpr hdw) (by linarith)
  · intro hdw
    unfold containSize
    split_ifs with h1 h2 h3 h4 <;> norm_num
    · norm_num at h1
      rw [heq1] at h1
      omega
    · norm_num at h2
      exact absurd (hgt1.mp h2) (by omega)
    · norm_num at h2
      exact absurd (hgt1.mp h2) (by omega)
    · norm_num at h4
      omega
  · intro hdw
    unfold containSize
    split_ifs with h1 h2 h3 h4 <;> norm_num <;>
      norm_num at h1 <;> exact absurd (heq1.mpr hdw) h1

/-- Counterexample to C2 as stated: a 100x100 image, already well within
the 960x960 box, does NOT keep its original dimensions — `ImageOps.contain`
scales it up to 960x960. -/
theorem C2_counterexample :
    (runGeneric imgSmall).image.dim = { w := 960, h := 960 }
    ∧ (runGeneric imgSmall).image.dim ≠ imgSmall.dim := by
  have h : (runGeneric imgSmall).image.dim = { w := 960, h := 960 } := by
    rw [runGeneric_dim]
    unfold containSize
    norm_num [imgSmall]
  refine ⟨h, ?_⟩
  rw [h]
  simp [imgSmall]

/-- C2 amended: the generic path performs a contain-fit resize whose output
always fits within 960x960 with the longer axis pinned to exactly 960 and
the other axis rounded proportionally — including UPSCALING images smaller
than the box (a square image always becomes exactly 960x960); the output is
not padded and its dimensions depend only on the aspect quotient. -/
theorem C2_amended_contain_fit (img : AbsImage)
    (hw : 0 < img.dim.w) (hh : 0 < img.dim.h) :
    (runGeneric img).image.dim = containSize img.dim { w := 960, h := 960 }
    ∧ (containSize img.dim { w := 960, h := 960 }).w ≤ 960
    ∧ (containSize img.dim { w := 960, h := 960 }).h ≤ 960
    ∧ (img.dim.h < img.dim.w →
        (containSize img.dim { w := 960, h := 960 }).w = 960
        ∧ (containSize img.dim { w := 960, h := 960 }).h
            = (pyRound ((img.dim.h : ℚ) / (img.dim.w : ℚ) * 960)).toNat)
    ∧ (img.dim.w < img.dim.h →
        (containSize img.dim { w := 960, h := 960 }).h = 960
        ∧ (containSize img.dim { w := 960, h := 960 }).w
            = (pyRound ((img.dim.w : ℚ) / (img.dim.h : ℚ) * 960)).toNat)
    ∧ (img.dim.w = img.dim.h →
        containSize img.dim { w := 960, h := 960 } = { w := 960, h := 960 }) := by
  have h := containSize_box960 img.dim hw hh
  exact ⟨runGeneric_dim img, h.1, h.2.1, h.2.2.1, h.2.2.2.1, h.2.2.2.2⟩

/-- Witness for the amended C2 on a concrete 1920x1080 landscape image:
the output is 960x540, within the box, longer axis pinned to 960. -/
theorem C2_witness :
    0 < tileImg0.dim.w
    ∧ 0 < tileImg0.dim.h
    ∧ (runGeneric tileImg0).image.dim = containSize tileImg0.dim { w := 960, h := 960 }
    ∧ (containSize tileImg0.dim { w := 960, h := 960 }).w = 960
    ∧ (containSize tileImg0.dim { w := 960, h := 960 }).h ≤ 960 := by
  have h := C2_amended_contain_fit tileImg0 (by norm_num [tileImg0]) (by norm_num [tileImg0])
  refine ⟨by norm_num [tileImg0], by norm_num [tileImg0], h.1, ?_, h.2.2.1⟩
  exact (h.2.2.2.1 (by norm_num [tileImg0])).1

end PaperCli
